import Mathlib

/-
Verification development for the n8n-nodes-linkedin repository.

The TypeScript sources are shallowly embedded: every browser interaction
(navigation, selector lookup, click, typing) is represented by an abstract
oracle or an explicit state field, promises that can reject are represented
by Except, and the JavaScript control flow of each function is translated
branch by branch.  All definitions are executable.
-/

namespace LinkedInNode

/-- JavaScript `String.prototype.includes`: substring containment, embedded as
infix containment of the character lists. -/
def strIncludes (s pat : String) : Bool := decide (pat.toList <:+: s.toList)

/-- URL pattern accepted by the post-URL validator (first alternative). -/
def patFeedUpdate : String := "linkedin.com/feed/update/"

/-- URL pattern accepted by the post-URL validator (second alternative). -/
def patPosts : String := "linkedin.com/posts/"

/-- Embedding of `isValidLinkedInPostUrl` (src/src/utils/validation.ts:10-13):
`if (!url) return false; return url.includes('linkedin.com/feed/update/') ||
url.includes('linkedin.com/posts/')`.  A JavaScript string is falsy exactly
when it is empty. -/
def isValidLinkedInPostUrl (url : String) : Bool :=
  if url = "" then false
  else strIncludes url patFeedUpdate || strIncludes url patPosts

/-- Observable interactability state of a DOM element (its `ElementState`):
computed-style visibility and the `disabled` flag. -/
structure Element where
  visible : Bool
  enabled : Bool
deriving DecidableEq

/-- Outcome of one `page.waitForSelector(selector, options)` call:
the element resolved, the call returned `null`, or it threw (timeout). -/
inductive LookupResult where
  | found (e : Element)
  | nullResult
  | timeout
deriving DecidableEq

/-- Embedding of `waitForSelectorWithFallback` (src/unnamed/part_002:52-71).
The page is abstracted by `lookup`, giving the result of the bounded-time
`waitForSelector` call for each selector string.  The source iterates the
candidates in order inside a `for` loop; a throw from `waitForSelector` is
caught and the loop continues, a `null` result falls through the
`if (element)` test and the loop continues, and a resolved element is
returned at once - the element's visibility and enabledness are never
inspected.  Exhausting the list returns `null`, embedded as `none`; the
total `Option` return type reflects that no exception escapes this
function. -/
def waitForSelectorWithFallback (lookup : String → LookupResult) :
    List String → Option Element
  | [] => none
  | s :: rest =>
    match lookup s with
    | .found e => some e
    | .nullResult => waitForSelectorWithFallback lookup rest
    | .timeout => waitForSelectorWithFallback lookup rest

/-- Page lookup used as counterexample: selector "a" resolves to an element
that is neither visible nor enabled, selector "b" resolves to a visible and
enabled element, everything else times out. -/
def cexLookup : String → LookupResult := fun s =>
  if s = "a" then .found ⟨false, false⟩
  else if s = "b" then .found ⟨true, true⟩
  else .timeout

/-- Claim C3 (counterexample): the claim states that resolution returns the
first candidate whose element is present, visible and enabled, and that a
resolved element that is not visible or not enabled is treated as not-found.
On the list ["a", "b"] under `cexLookup`, candidate "b" is present, visible
and enabled, yet `waitForSelectorWithFallback` returns the element of "a",
which is neither visible nor enabled - the code never evaluates visibility
or enabledness. -/
theorem wfswf_ignores_visibility_cex :
    cexLookup "b" = .found ⟨true, true⟩ ∧
    waitForSelectorWithFallback cexLookup ["a", "b"] = some ⟨false, false⟩ := by
  exact ⟨rfl, rfl⟩

/-- Claim C3 (amended): for every ordered selector list that splits as
`l₁ ++ s :: l₂` where every candidate of `l₁` is absent (its lookup does not
resolve an element) and `s` resolves to element `e`, resolution returns `e` -
the first present candidate in list order, regardless of earlier candidates
being absent and regardless of `e`'s visibility or enabledness. -/
theorem wfswf_returns_first_present (lookup : String → LookupResult)
    (l₁ l₂ : List String) (s : String) (e : Element)
    (h₁ : ∀ t ∈ l₁, ∀ e', lookup t ≠ .found e')
    (h₂ : lookup s = .found e) :
    waitForSelectorWithFallback lookup (l₁ ++ s :: l₂) = some e := by
  induction l₁ with
  | nil =>
    simp only [List.nil_append, waitForSelectorWithFallback, h₂]
  | cons t ts ih =>
    have ht : ∀ e', lookup t ≠ .found e' := h₁ t (List.mem_cons_self t ts)
    have hts : ∀ u ∈ ts, ∀ e', lookup u ≠ .found e' :=
      fun u hu => h₁ u (List.mem_cons_of_mem t hu)
    simp only [List.cons_append, waitForSelectorWithFallback]
    cases hl : lookup t with
    | found e' => exact absurd hl (ht e')
    | nullResult => exact ih hts
    | timeout => exact ih hts

/-- Claim C3 witness: concrete instance of the amended theorem, with an
absent candidate before the first present one. -/
theorem wfswf_returns_first_present_witness :
    waitForSelectorWithFallback cexLookup (["zz"] ++ "a" :: ["b"]) =
      some ⟨false, false⟩ := by
  apply wfswf_returns_first_present cexLookup ["zz"] ["b"] "a" ⟨false, false⟩
  · intro t ht e' hEq
    have : t = "zz" := by simpa using ht
    subst this
    simp [cexLookup] at hEq
  · rfl

/-- Claim C4: for every selector list all of whose candidates are absent
(no lookup resolves an element - each times out or returns null), resolution
returns the not-found value `none`.  The embedding's total `Option` return
type records that this is a normal return of the source function, in which
every per-candidate exception is caught inside the loop, not a raise. -/
theorem wfswf_all_absent (lookup : String → LookupResult) (l : List String)
    (h : ∀ t ∈ l, ∀ e, lookup t ≠ .found e) :
    waitForSelectorWithFallback lookup l = none := by
  induction l with
  | nil => rfl
  | cons t ts ih =>
    have ht : ∀ e, lookup t ≠ .found e := h t (List.mem_cons_self t ts)
    have hts : ∀ u ∈ ts, ∀ e, lookup u ≠ .found e :=
      fun u hu => h u (List.mem_cons_of_mem t hu)
    simp only [waitForSelectorWithFallback]
    cases hl : lookup t with
    | found e => exact absurd hl (ht e)
    | nullResult => exact ih hts
    | timeout => exact ih hts

/-- Claim C4 witness: selectors "x" and "y" both time out under `cexLookup`,
and resolution returns `none`. -/
theorem wfswf_all_absent_witness :
    waitForSelectorWithFallback cexLookup ["x", "y"] = none := by
  apply wfswf_all_absent
  intro t ht e hEq
  rcases (by simpa using ht : t = "x" ∨ t = "y") with h' | h' <;>
    (subst h'; simp [cexLookup] at hEq)

/-- Loop body of `navigateWithRetry` (src/unnamed/part_002:15-43).  The page
is abstracted by `gotoOk`, telling for each attempt index whether that
`page.goto` call succeeds (resolves) or fails (rejects).  `attempts` is the
source's loop counter, equal to the number of failed `page.goto` calls so
far; `fuel` equals `maxRetries - attempts`, so `fuel = 0` is exactly the
`while (attempts < maxRetries)` condition failing (the trailing
`return false`).  The returned pair is the source's boolean result together
with the total number of `page.goto` calls performed. -/
def navigateWithRetryGo (gotoOk : Nat → Bool) (maxRetries : Nat) :
    Nat → Nat → Bool × Nat
  | 0, attempts => (false, attempts)
  | fuel + 1, attempts =>
    if gotoOk attempts then (true, attempts + 1)
    else if maxRetries ≤ attempts + 1 then (false, attempts + 1)
    else navigateWithRetryGo gotoOk maxRetries fuel (attempts + 1)

/-- Embedding of `navigateWithRetry` (src/unnamed/part_002:15-43): run the
retry loop from `attempts = 0`.  The fixed inter-attempt delay
(`page.waitForTimeout(1000)`) has no effect on the result and is not
modelled. -/
def navigateWithRetry (gotoOk : Nat → Bool) (maxRetries : Nat) : Bool × Nat :=
  navigateWithRetryGo gotoOk maxRetries maxRetries 0

theorem navigateWithRetryGo_snd_le (gotoOk : Nat → Bool) (maxRetries : Nat) :
    ∀ fuel attempts, fuel + attempts = maxRetries →
      (navigateWithRetryGo gotoOk maxRetries fuel attempts).2 ≤ maxRetries := by
  intro fuel
  induction fuel with
  | zero => intro a h; simpa [navigateWithRetryGo] using h.le
  | succ n ih =>
    intro a h
    simp only [navigateWithRetryGo]
    by_cases hg : gotoOk a = true
    · simp [hg]; omega
    · simp only [hg, if_false, Bool.false_eq_true]
      by_cases hm : maxRetries ≤ a + 1
      · simp [hm]; omega
      · simp only [hm, if_false]
        exact ih (a + 1) (by omega)

theorem navigateWithRetryGo_all_fail (gotoOk : Nat → Bool) (maxRetries : Nat)
    (hf : ∀ k, k < maxRetries → gotoOk k = false) :
    ∀ fuel attempts, fuel + attempts = maxRetries →
      navigateWithRetryGo gotoOk maxRetries fuel attempts = (false, maxRetries) := by
  intro fuel
  induction fuel with
  | zero =>
    intro a h
    have : a = maxRetries := by omega
    simp [navigateWithRetryGo, this]
  | succ n ih =>
    intro a h
    have ha : a < maxRetries := by omega
    simp only [navigateWithRetryGo, hf a ha, if_false, Bool.false_eq_true]
    by_cases hm : maxRetries ≤ a + 1
    · simp only [hm, if_true]
      have : a + 1 = maxRetries := by omega
      rw [this]
    · simp only [hm, if_false]
      exact ih (a + 1) (by omega)

theorem navigateWithRetryGo_first_success (gotoOk : Nat → Bool) (maxRetries k : Nat)
    (hkm : k < maxRetries) (hgk : gotoOk k = true) :
    ∀ fuel attempts, fuel + attempts = maxRetries → attempts ≤ k →
      (∀ j, attempts ≤ j → j < k → gotoOk j = false) →
      navigateWithRetryGo gotoOk maxRetries fuel attempts = (true, k + 1) := by
  intro fuel
  induction fuel with
  | zero => intro a h hak _; omega
  | succ n ih =>
    intro a h hak hj
    rcases Nat.eq_or_lt_of_le hak with hEq | hlt
    · subst hEq
      simp [navigateWithRetryGo, hgk]
    · have hga : gotoOk a = false := hj a le_rfl hlt
      have hm : ¬ maxRetries ≤ a + 1 := by omega
      simp only [navigateWithRetryGo, hga, if_false, hm, Bool.false_eq_true]
      exact ih (a + 1) (by omega) (by omega)
        (fun j hja hjk => hj j (by omega) hjk)

/-- Claim C5: the navigation-retry contract.  For every sequence of
`page.goto` outcomes and every `maxRetries`: (1) at most `maxRetries` goto
attempts are performed; (2) when every attempt within the bound fails the
function returns `false` after exactly `maxRetries` attempts - a normal
boolean return, not a throw, as the total embedding records; (3) when
attempt `k` is the first to succeed within the bound, the function returns
`true` after `k + 1` attempts. -/
theorem navigateWithRetry_contract (gotoOk : Nat → Bool) (maxRetries : Nat) :
    (navigateWithRetry gotoOk maxRetries).2 ≤ maxRetries ∧
    ((∀ k, k < maxRetries → gotoOk k = false) →
      navigateWithRetry gotoOk maxRetries = (false, maxRetries)) ∧
    (∀ k, k < maxRetries → gotoOk k = true →
      (∀ j, j < k → gotoOk j = false) →
      navigateWithRetry gotoOk maxRetries = (true, k + 1)) := by
  refine ⟨?_, ?_, ?_⟩
  · exact navigateWithRetryGo_snd_le gotoOk maxRetries maxRetries 0 (by omega)
  · intro hf
    exact navigateWithRetryGo_all_fail gotoOk maxRetries hf maxRetries 0 (by omega)
  · intro k hkm hgk hj
    exact navigateWithRetryGo_first_success gotoOk maxRetries k hkm hgk
      maxRetries 0 (by omega) (Nat.zero_le k) (fun j _ hjk => hj j hjk)

/-- Attempt oracle used in witnesses: the first attempt fails and the second
succeeds. -/
def secondTryGoto : Nat → Bool := fun k => k == 1

/-- Claim C5 witness: with the first attempt failing and the second
succeeding, `navigateWithRetry` with 3 retries returns `true` after 2
attempts; with every attempt failing it returns `false` after 3 attempts. -/
theorem navigateWithRetry_contract_witness :
    navigateWithRetry secondTryGoto 3 = (true, 2) ∧
    navigateWithRetry (fun _ => false) 3 = (false, 3) := by
  constructor
  · exact (navigateWithRetry_contract secondTryGoto 3).2.2 1 (by decide)
      (by decide) (by decide)
  · exact (navigateWithRetry_contract (fun _ => false) 3).2.1
      (fun k _ => rfl)

/-- URL fragment that marks a checkpoint page in the source's checks. -/
def patCheckpoint : String := "checkpoint"

/-- URL fragment for the authenticated feed surface. -/
def patFeed : String := "linkedin.com/feed"

/-- URL fragment used in the first post-action success check of
`handleCheckpoint` (src/unnamed/part_001:828) - note the source's typo:
a dot instead of a slash before `home`. -/
def patHomeTypo : String := "linkedin.com.home"

/-- URL fragment for the home surface used in the non-headless re-check
(src/unnamed/part_001:860). -/
def patHome : String := "linkedin.com/home"

/-- One invocation ("round") of `handleCheckpoint` as seen through the page:
whether the generic-selector button loop escaped the checkpoint (a click in
that loop left a URL that no longer contains "checkpoint", the early return
at src/unnamed/part_001:796-799; in the source this loop only runs when no
text-matched button was clicked), the page URL once all of the round's
fills and clicks are done (read at line 827), and the page URL after the
30-second manual-intervention wait (read at line 858, used only in the
non-headless stuck branch). -/
structure CheckpointRound where
  escapedViaGenericButton : Bool
  urlAfterActions : String
  urlAfterWait : String

/-- URL shown at the entry of round `i`: the initial URL for round 0, and
the previous round's post-action URL afterwards (the recursive call at
src/unnamed/part_001:836 re-reads `page.url()`). -/
def urlAtDepth (url0 : String) (rounds : Nat → CheckpointRound) : Nat → String
  | 0 => url0
  | i + 1 => (rounds i).urlAfterActions

/-- Result of `handleCheckpoint`: a normal return, or a thrown error. -/
inductive CheckpointOutcome where
  | passed
  | fatal (msg : String)
deriving DecidableEq

/-- Error thrown in headless mode when the checkpoint could not be passed
(src/unnamed/part_001:851). -/
def headlessCheckpointMsg : String :=
  "Could not automatically handle LinkedIn checkpoint page. Try running with headless=false to manually approve the login."

/-- Error thrown in non-headless mode when the page is still a checkpoint
after the manual-intervention wait (src/unnamed/part_001:865). -/
def interventionFailedMsg : String :=
  "Even after waiting for user intervention, still stuck at LinkedIn checkpoint page."

/-- Prefix added by `handleCheckpoint`'s own catch block to every error that
escapes it, including errors of its recursive calls
(src/unnamed/part_001:869). -/
def checkpointWrap : String := "Checkpoint handling failed: "

/-- Embedding of `handleCheckpoint` (src/unnamed/part_001:689-871), with an
explicit fuel argument because the source recursion carries no depth
counter or bound of any kind - `none` means the fuel was exhausted while
the source would still be recursing.  Per invocation at depth `i`: the
generic-button early return (lines 775-806), then the feed/home success
check (lines 827-831), then the recursion guarded only by "the URL still
contains 'checkpoint' and changed" (lines 834-837), then the headless
fatal throw (lines 849-851), and otherwise the non-headless wait and
re-check (lines 853-866).  Every error is wrapped by the catch at line
869. -/
def handleCheckpointFuel (headless : Bool) (url0 : String)
    (rounds : Nat → CheckpointRound) : Nat → Nat → Option CheckpointOutcome
  | 0, _ => none
  | fuel + 1, i =>
    let currentUrl := urlAtDepth url0 rounds i
    let r := rounds i
    if r.escapedViaGenericButton then some .passed
    else if strIncludes r.urlAfterActions patFeed ||
        strIncludes r.urlAfterActions patHomeTypo then some .passed
    else if strIncludes r.urlAfterActions patCheckpoint &&
        r.urlAfterActions != currentUrl then
      match handleCheckpointFuel headless url0 rounds fuel (i + 1) with
      | none => none
      | some .passed => some .passed
      | some (.fatal e) => some (.fatal (checkpointWrap ++ e))
    else if headless then some (.fatal (checkpointWrap ++ headlessCheckpointMsg))
    else if strIncludes r.urlAfterWait patFeed ||
        strIncludes r.urlAfterWait patHome ||
        !(strIncludes r.urlAfterWait patCheckpoint) then some .passed
    else some (.fatal (checkpointWrap ++ interventionFailedMsg))

/-- Termination of the embedded `handleCheckpoint` on a given surface:
some finite fuel suffices for the recursion to return. -/
def checkpointTerminates (headless : Bool) (url0 : String)
    (rounds : Nat → CheckpointRound) : Prop :=
  ∃ fuel, (handleCheckpointFuel headless url0 rounds fuel 0).isSome = true

/-- Adversarial checkpoint URL at depth `i`: always contains "checkpoint",
never the feed or home fragments, and differs at every depth. -/
def advUrl (i : Nat) : String := patCheckpoint ++ String.mk (List.replicate i 'a')

/-- Adversarial surface: every round re-presents a checkpoint under a
changed URL, with no generic-button escape. -/
def advRounds (i : Nat) : CheckpointRound :=
  ⟨false, advUrl (i + 1), advUrl (i + 1)⟩

theorem advUrl_toList (i : Nat) :
    (advUrl i).toList = patCheckpoint.toList ++ List.replicate i 'a' := rfl

theorem advUrl_contains_checkpoint (i : Nat) :
    strIncludes (advUrl i) patCheckpoint = true := by
  apply decide_eq_true
  refine ⟨[], List.replicate i 'a', ?_⟩
  rw [advUrl_toList]
  simp

theorem dot_not_mem_advUrl (i : Nat) : '.' ∉ (advUrl i).toList := by
  rw [advUrl_toList]
  intro h
  rcases List.mem_append.mp h with h' | h'
  · revert h'; decide
  · exact absurd (List.eq_of_mem_replicate h') (by decide)

theorem advUrl_not_feed (i : Nat) : strIncludes (advUrl i) patFeed = false := by
  apply decide_eq_false
  intro h
  exact dot_not_mem_advUrl i (h.subset (by decide : '.' ∈ patFeed.toList))

theorem advUrl_not_homeTypo (i : Nat) :
    strIncludes (advUrl i) patHomeTypo = false := by
  apply decide_eq_false
  intro h
  exact dot_not_mem_advUrl i (h.subset (by decide : '.' ∈ patHomeTypo.toList))

theorem advUrl_succ_ne (i : Nat) : advUrl (i + 1) ≠ advUrl i := by
  intro h
  have hl : (advUrl (i + 1)).toList.length = (advUrl i).toList.length := by
    rw [h]
  rw [advUrl_toList, advUrl_toList] at hl
  simp only [List.length_append, List.length_replicate] at hl
  omega

theorem urlAtDepth_adv (i : Nat) :
    urlAtDepth (advUrl 0) advRounds i = advUrl i := by
  cases i with
  | zero => rfl
  | succ n => rfl

/-- On the adversarial surface, every amount of fuel is exhausted: the
source recursion never returns. -/
theorem handleCheckpointFuel_adv_diverges :
    ∀ fuel i, handleCheckpointFuel true (advUrl 0) advRounds fuel i = none := by
  intro fuel
  induction fuel with
  | zero => intro i; rfl
  | succ n ih =>
    intro i
    have hne : (advUrl (i + 1) != advUrl i) = true :=
      bne_iff_ne.mpr (advUrl_succ_ne i)
    simp only [handleCheckpointFuel, advRounds, urlAtDepth_adv,
      advUrl_not_feed, advUrl_not_homeTypo, advUrl_contains_checkpoint, hne,
      Bool.false_or, Bool.and_self, if_false, if_true, Bool.false_eq_true,
      ih (i + 1)]

/-- Claim C1 (counterexample): on a surface that always re-presents a
checkpoint under a changed URL, `handleCheckpoint` in headless mode does
not terminate for any recursion depth - the source carries no depth
counter, so no fixed maximum depth bounds the recursion and no fatal
failure is ever produced on this surface. -/
theorem checkpoint_recursion_unbounded_cex :
    ¬ checkpointTerminates true (advUrl 0) advRounds := by
  rintro ⟨fuel, h⟩
  rw [handleCheckpointFuel_adv_diverges fuel 0] at h
  simp at h

/-- Claim C1 (amended): the only terminating failure of the checkpoint
recursion is lack of URL progress, not a depth bound.  If at depth `i`
the generic-button loop did not escape, the post-action URL is unchanged
(still the round's entry URL, still containing "checkpoint", and not an
authenticated surface), then in headless mode the invocation returns the
fatal error instructing the operator to rerun non-headless, without
recursing - at any positive fuel. -/
theorem handleCheckpoint_stuck_headless_fatal (url0 : String)
    (rounds : Nat → CheckpointRound) (i fuel : Nat)
    (hesc : (rounds i).escapedViaGenericButton = false)
    (hsame : (rounds i).urlAfterActions = urlAtDepth url0 rounds i)
    (hcp : strIncludes (rounds i).urlAfterActions patCheckpoint = true)
    (hfeed : strIncludes (rounds i).urlAfterActions patFeed = false)
    (hhome : strIncludes (rounds i).urlAfterActions patHomeTypo = false) :
    handleCheckpointFuel true url0 rounds (fuel + 1) i =
      some (.fatal (checkpointWrap ++ headlessCheckpointMsg)) := by
  have hne : ((rounds i).urlAfterActions != urlAtDepth url0 rounds i) = false := by
    simp [hsame]
  simp only [handleCheckpointFuel, hesc, hfeed, hhome, hcp, hne,
    Bool.false_or, Bool.and_false, if_false, if_true, Bool.false_eq_true]

/-- Stuck surface used as witness: the URL never changes. -/
def stuckRounds : Nat → CheckpointRound := fun _ => ⟨false, advUrl 0, advUrl 0⟩

/-- Claim C1 witness: on the stuck surface the headless invocation at depth
0 returns the fatal rerun-non-headless error with one unit of fuel. -/
theorem handleCheckpoint_stuck_headless_fatal_witness :
    handleCheckpointFuel true (advUrl 0) stuckRounds 1 0 =
      some (.fatal (checkpointWrap ++ headlessCheckpointMsg)) := by
  exact handleCheckpoint_stuck_headless_fatal (advUrl 0) stuckRounds 0 0 rfl rfl
    (advUrl_contains_checkpoint 0) (advUrl_not_feed 0) (advUrl_not_homeTypo 0)

/-- Result of `handle2FA` (src/unnamed/part_001:555-592).  Every
constructor is a normal return: the function's own catch block converts
every error raised in its body into a log line followed by a normal
return, so no exception ever escapes to `loginToLinkedIn`. -/
inductive Handle2FAResult where
  | completed
  | skippedNoInput
  | proceededAfterError (loggedError : String)
deriving DecidableEq

/-- Error raised (and then swallowed) when two-factor authentication is
enabled but no code was supplied (src/unnamed/part_001:560). -/
def missing2FAMsg : String :=
  "Two-factor authentication code is required but not provided"

/-- Embedding of `handle2FA` (src/unnamed/part_001:555-592).
`twoFactorCode` is the credential field, with the empty string as the
JavaScript-falsy missing value tested by `if (!twoFactorCode)`;
`lookupVerificationInput` is the outcome of
`page.waitForSelector(LOGIN_VERIFICATION_CODE, ...)`: a thrown timeout, a
`null` return (the early `return` at line 568), or a resolved input.  The
body may throw (the missing-code configuration error, or the selector
timeout); the function's catch block at line 587-591 logs the message and
returns normally in every such case. -/
def handle2FA (twoFactorCode : String)
    (lookupVerificationInput : Except String (Option Unit)) : Handle2FAResult :=
  let body : Except String Handle2FAResult :=
    if twoFactorCode = "" then Except.error missing2FAMsg
    else
      match lookupVerificationInput with
      | .error e => .error e
      | .ok none => .ok .skippedNoInput
      | .ok (some _) => .ok .completed
  match body with
  | .ok r => r
  | .error e => .proceededAfterError e

/-- Claim C2 (code bug): when the two-factor code is missing, `handle2FA`
raises the configuration error but its own catch block swallows it and
returns normally (merely logging the message), for every state of the
verification-code lookup - so `loginToLinkedIn` continues past the 2FA
step instead of failing fatally and immediately as the claim (and the
error message's evident intent) states. -/
theorem handle2FA_swallows_missing_code
    (lookupVerificationInput : Except String (Option Unit)) :
    handle2FA "" lookupVerificationInput =
      .proceededAfterError missing2FAMsg := rfl

/-- Abstract state of a post page as the like flows observe and mutate it.
`navOk` is the success of the navigation to the post URL (the
`navigateWithRetry` result in the service, the single `page.goto` in the
inline handler); `containerPresent` and `likeButtonPresent` abstract the
respective selector waits; `liked` is the observable pressed/active state
of the like control (`aria-pressed="true"` or an active style class), and
`clickRegisters` says whether a click on the control takes effect and
toggles that state. -/
structure PostPage where
  navOk : Bool
  containerPresent : Bool
  likeButtonPresent : Bool
  liked : Bool
  clickRegisters : Bool
deriving DecidableEq

/-- Effect of clicking the like control: toggles the observable
pressed/active state when the click registers, otherwise leaves the page
unchanged. -/
def clickLikeControl (st : PostPage) : PostPage :=
  if st.clickRegisters then { st with liked := !st.liked } else st

deriving instance DecidableEq for Except

/-- Outcome of a like flow: the returned value or thrown error, the page
state afterwards, and instrumentation counting the navigations and like
clicks performed. -/
structure LikeOutcome where
  result : Except String Bool
  st : PostPage
  navs : Nat
  clicks : Nat
deriving DecidableEq

/-- Error-message prefix added by `likePost`'s catch block
(src/src/services/postService.ts:78). -/
def likeWrap : String := "Failed to like LinkedIn post: "

/-- Invalid-URL error raised by the post operations
(src/src/services/postService.ts:22 and the analogous lines). -/
def invalidPostUrlMsg : String :=
  "Invalid LinkedIn post URL. Expected format includes \"linkedin.com/feed/update/\" or \"linkedin.com/posts/\""

/-- Navigation-exhaustion error of the post operations
(src/src/services/postService.ts:28 and the analogous lines). -/
def navFailMsg : String :=
  "Failed to navigate to the LinkedIn post after multiple attempts"

/-- Rejection message of a timed-out `page.waitForSelector(POST_CONTAINER)`
call, modelled from the browser driver's timeout error. -/
def containerTimeoutMsg : String :=
  "TimeoutError: waiting for selector POST_CONTAINER failed"

/-- Missing like control (src/src/services/postService.ts:40). -/
def likeButtonMissingMsg : String :=
  "Like button not found. LinkedIn may have changed their UI."

/-- Failed post-condition verification (src/src/services/postService.ts:71). -/
def likeNotRegisteredMsg : String :=
  "Like action did not register. The post might not be likeable."

/-- Embedding of the service-layer `likePost`
(src/src/services/postService.ts:16-80): validate the URL, navigate with
retry, wait for the post container, resolve the like control through the
fallback chain, read its pressed/active state and short-circuit as success
when already liked, otherwise click, wait a settle interval, re-read the
pressed/active state and fail when it is still not set.  Every error is
wrapped by the catch block at line 76-79. -/
def likePost (postUrl : String) (st : PostPage) : LikeOutcome :=
  if !isValidLinkedInPostUrl postUrl then
    ⟨.error (likeWrap ++ invalidPostUrlMsg), st, 0, 0⟩
  else if !st.navOk then
    ⟨.error (likeWrap ++ navFailMsg), st, 1, 0⟩
  else if !st.containerPresent then
    ⟨.error (likeWrap ++ containerTimeoutMsg), st, 1, 0⟩
  else if !st.likeButtonPresent then
    ⟨.error (likeWrap ++ likeButtonMissingMsg), st, 1, 0⟩
  else if st.liked then
    ⟨.ok true, st, 1, 0⟩
  else
    let st' := clickLikeControl st
    if !st'.liked then
      ⟨.error (likeWrap ++ likeNotRegisteredMsg), st', 1, 1⟩
    else
      ⟨.ok true, st', 1, 1⟩

/-- Error-message prefix of `handlePostOperations` for the like operation
(src/unnamed/part_001:922). -/
def postOpLikeWrap : String := "Post operation 'like' failed: "

/-- Rejection message of a failed single `page.goto` call, modelled from
the browser driver's navigation error. -/
def gotoFailMsg : String := "Navigation failed"

/-- Rejection message of a timed-out `page.waitForSelector(LIKE_BUTTON)`
call, modelled from the browser driver's timeout error. -/
def likeButtonTimeoutMsg : String :=
  "TimeoutError: waiting for selector LIKE_BUTTON failed"

/-- Embedding of the like case of `handlePostOperations`
(src/unnamed/part_001:874-890): navigate to the URL with a single `goto`
(no URL validation, no retry), wait for the like button, click it
unconditionally - the pressed/active state is never read, neither before
nor after the click - wait a settle interval, and return
`{ success: true, action: 'liked', url }`. -/
def handlePostLike (st : PostPage) : LikeOutcome :=
  if !st.navOk then
    ⟨.error (postOpLikeWrap ++ gotoFailMsg), st, 1, 0⟩
  else if !st.likeButtonPresent then
    ⟨.error (postOpLikeWrap ++ likeButtonTimeoutMsg), st, 1, 0⟩
  else
    ⟨.ok true, clickLikeControl st, 1, 1⟩

/-- Post page whose like control is already pressed and whose clicks
register. -/
def likedPage : PostPage := ⟨true, true, true, true, true⟩

/-- Claim C6 (counterexample): the inline node handler's like operation is
not idempotent.  On a page whose like control is already in the
pressed/active state it still performs a click (so two invocations perform
two mutations, not one), reports success, and in fact leaves the control
un-pressed - the click toggles the already-liked state. -/
theorem handlePostLike_not_idempotent_cex :
    (handlePostLike likedPage).clicks = 1 ∧
    (handlePostLike likedPage).result = .ok true ∧
    (handlePostLike likedPage).st.liked = false := by
  exact ⟨rfl, rfl, rfl⟩

/-- Claim C6 (amended): the service-layer `likePost` is idempotent.  On a
reachable page (valid URL, navigation, container and like control all
resolvable): when the like control is already pressed/active the call
performs no click, leaves the page unchanged and reports success; and when
it is unpressed with a registering click, the first call clicks once and
succeeds, after which the second call performs no click, changes nothing
and also succeeds - one mutation in total.  The inline handler's like case
(`handlePostLike`) lacks the short-circuit and is not idempotent. -/
theorem likePost_idempotent (postUrl : String) (st : PostPage)
    (hurl : isValidLinkedInPostUrl postUrl = true)
    (hnav : st.navOk = true) (hcont : st.containerPresent = true)
    (hbtn : st.likeButtonPresent = true) :
    (st.liked = true → likePost postUrl st = ⟨.ok true, st, 1, 0⟩) ∧
    (st.liked = false → st.clickRegisters = true →
      likePost postUrl st = ⟨.ok true, { st with liked := true }, 1, 1⟩ ∧
      likePost postUrl { st with liked := true } =
        ⟨.ok true, { st with liked := true }, 1, 0⟩) := by
  constructor
  · intro hl
    simp [likePost, hurl, hnav, hcont, hbtn, hl]
  · intro hl hreg
    constructor
    · simp [likePost, hurl, hnav, hcont, hbtn, hl, clickLikeControl, hreg]
    · simp [likePost, hurl, hnav, hcont, hbtn]

/-- Post page whose like control is unpressed and whose clicks register. -/
def unlikedPage : PostPage := ⟨true, true, true, false, true⟩

/-- Concrete valid post URL used in witnesses. -/
def witnessPostUrl : String := "https://www.linkedin.com/posts/abc"

/-- Claim C6 witness: on the unpressed page, liking once clicks once and
succeeds, and liking again clicks zero times and succeeds. -/
theorem likePost_idempotent_witness :
    likePost witnessPostUrl unlikedPage =
      ⟨.ok true, { unlikedPage with liked := true }, 1, 1⟩ ∧
    likePost witnessPostUrl { unlikedPage with liked := true } =
      ⟨.ok true, { unlikedPage with liked := true }, 1, 0⟩ := by
  exact (likePost_idempotent witnessPostUrl unlikedPage (by decide) rfl rfl
    rfl).2 rfl rfl

/-- Post page whose like control is unpressed and whose clicks do not
register. -/
def unlikedStuckPage : PostPage := ⟨true, true, true, false, false⟩

/-- Claim C7 (counterexample): the inline node handler's like operation
reports success without any post-condition verification.  On a page whose
click does not register, it returns success although the re-readable
pressed/active state of the like control is still false - so it is not
true of every mutating operation that the success flag requires both the
mutation and its verification to have succeeded. -/
theorem handlePostLike_success_without_verification_cex :
    (handlePostLike unlikedStuckPage).result = .ok true ∧
    (handlePostLike unlikedStuckPage).st.liked = false := by
  exact ⟨rfl, rfl⟩

/-- Claim C7 (amended): the service-layer `likePost` reports success only
when the observable pressed/active state of the like control is true at
return - read before returning in the already-liked short-circuit, or
re-read after the click and the settle interval in the mutating path, where
success additionally requires the click to have registered.  The inline
handler's like case performs no such verification. -/
theorem likePost_success_implies_pressed (postUrl : String) (st : PostPage)
    (h : (likePost postUrl st).result = .ok true) :
    (likePost postUrl st).st.liked = true := by
  unfold likePost at h ⊢
  by_cases hurl : isValidLinkedInPostUrl postUrl = true
  · simp only [hurl, Bool.not_true, Bool.false_eq_true, if_false] at h ⊢
    by_cases hnav : st.navOk = true
    · simp only [hnav, Bool.not_true, Bool.false_eq_true, if_false] at h ⊢
      by_cases hcont : st.containerPresent = true
      · simp only [hcont, Bool.not_true, Bool.false_eq_true, if_false] at h ⊢
        by_cases hbtn : st.likeButtonPresent = true
        · simp only [hbtn, Bool.not_true, Bool.false_eq_true, if_false] at h ⊢
          by_cases hl : st.liked = true
          · simp [hl]
          · simp only [hl, if_false] at h ⊢
            by_cases hreg : (clickLikeControl st).liked = true
            · simp [hreg]
            · simp only [Bool.not_eq_true] at hreg
              simp [hreg] at h
        · simp only [Bool.not_eq_true] at hbtn
          simp [hbtn] at h
      · simp only [Bool.not_eq_true] at hcont
        simp [hcont] at h
    · simp only [Bool.not_eq_true] at hnav
      simp [hnav] at h
  · simp only [Bool.not_eq_true] at hurl
    simp [hurl] at h

/-- Claim C7 witness: the already-liked short-circuit returns success, and
the pressed/active state at return is indeed true. -/
theorem likePost_success_implies_pressed_witness :
    (likePost witnessPostUrl likedPage).st.liked = true := by
  exact likePost_success_implies_pressed witnessPostUrl likedPage (by decide)

/-- Abstract state of a post page as `commentOnPost` observes it. -/
structure CommentPage where
  navOk : Bool
  containerPresent : Bool
  commentButtonPresent : Bool
  textboxPresent : Bool
  submitPresent : Bool
deriving DecidableEq

/-- Outcome of `commentOnPost` or `sharePost`: returned value or thrown
error, plus counts of navigations, clicks and text entries performed. -/
structure InteractionOutcome where
  result : Except String Bool
  navs : Nat
  clicks : Nat
  types : Nat
deriving DecidableEq

/-- Error-message prefix added by `commentOnPost`'s catch block
(src/src/services/postService.ts:156). -/
def commentWrap : String := "Failed to comment on LinkedIn post: "

/-- Missing comment button (src/src/services/postService.ts:109). -/
def commentButtonMissingMsg : String :=
  "Comment button not found. LinkedIn may have changed their UI."

/-- Missing comment textbox (src/src/services/postService.ts:123). -/
def commentTextboxMissingMsg : String :=
  "Comment textbox not found. LinkedIn may have changed their UI."

/-- Missing comment submit button (src/src/services/postService.ts:143). -/
def commentSubmitMissingMsg : String :=
  "Comment submit button not found. LinkedIn may have changed their UI."

/-- Embedding of `commentOnPost` (src/src/services/postService.ts:85-158):
validate the URL, navigate with retry, wait for the post container, resolve
and click the comment button, resolve the comment textbox, click it and
type the comment, resolve and click the submit button.  Every error is
wrapped by the catch block. -/
def commentOnPost (postUrl comment : String) (pg : CommentPage) :
    InteractionOutcome :=
  if !isValidLinkedInPostUrl postUrl then
    ⟨.error (commentWrap ++ invalidPostUrlMsg), 0, 0, 0⟩
  else if !pg.navOk then
    ⟨.error (commentWrap ++ navFailMsg), 1, 0, 0⟩
  else if !pg.containerPresent then
    ⟨.error (commentWrap ++ containerTimeoutMsg), 1, 0, 0⟩
  else if !pg.commentButtonPresent then
    ⟨.error (commentWrap ++ commentButtonMissingMsg), 1, 0, 0⟩
  else if !pg.textboxPresent then
    ⟨.error (commentWrap ++ commentTextboxMissingMsg), 1, 1, 0⟩
  else if !pg.submitPresent then
    ⟨.error (commentWrap ++ commentSubmitMissingMsg), 1, 2, 1⟩
  else
    ⟨.ok true, 1, 3, 1⟩

/-- Abstract state of a post page as `sharePost` observes it. -/
structure SharePage where
  navOk : Bool
  containerPresent : Bool
  shareButtonPresent : Bool
  dialogPresent : Bool
  textAreaPresent : Bool
  postButtonPresent : Bool
deriving DecidableEq

/-- Error-message prefix added by `sharePost`'s catch block
(src/src/services/postService.ts:267). -/
def shareWrap : String := "Failed to share LinkedIn post: "

/-- Missing share button (src/src/services/postService.ts:200). -/
def shareButtonMissingMsg : String :=
  "Share button not found. LinkedIn may have changed their UI."

/-- Missing share dialog (src/src/services/postService.ts:219). -/
def shareDialogMissingMsg : String :=
  "Share dialog not found. LinkedIn may have changed their UI."

/-- Missing share submit button (src/src/services/postService.ts:254). -/
def shareSubmitMissingMsg : String :=
  "Post/Share submit button not found. LinkedIn may have changed their UI."

/-- Embedding of `sharePost` (src/src/services/postService.ts:163-269):
validate the URL, navigate with retry, wait for the post container, resolve
and click the share button, resolve the share dialog, optionally (when the
share text is non-blank) resolve the text area and - only when it is found,
a missing text area is not an error - click it and type the text, then
resolve and click the submit button.  Every error is wrapped by the catch
block. -/
def sharePost (postUrl shareText : String) (pg : SharePage) :
    InteractionOutcome :=
  if !isValidLinkedInPostUrl postUrl then
    ⟨.error (shareWrap ++ invalidPostUrlMsg), 0, 0, 0⟩
  else if !pg.navOk then
    ⟨.error (shareWrap ++ navFailMsg), 1, 0, 0⟩
  else if !pg.containerPresent then
    ⟨.error (shareWrap ++ containerTimeoutMsg), 1, 0, 0⟩
  else if !pg.shareButtonPresent then
    ⟨.error (shareWrap ++ shareButtonMissingMsg), 1, 0, 0⟩
  else if !pg.dialogPresent then
    ⟨.error (shareWrap ++ shareDialogMissingMsg), 1, 1, 0⟩
  else
    let entry : Nat × Nat :=
      if shareText.trim = "" then (0, 0)
      else if pg.textAreaPresent then (1, 1) else (0, 0)
    if !pg.postButtonPresent then
      ⟨.error (shareWrap ++ shareSubmitMissingMsg), 1, 1 + entry.1, entry.2⟩
    else
      ⟨.ok true, 1, 2 + entry.1, entry.2⟩

/-- Record extracted by `getPostInfo`'s in-page evaluation
(src/src/services/postService.ts:297-409). -/
structure PostData where
  authorName : String
  authorHeadline : String
  authorProfileUrl : String
  postText : String
  postDate : String
  isLiked : Bool
  postUrl : String
deriving DecidableEq

/-- Abstract state of a post page as `getPostInfo` observes it:
navigation and container resolution, plus the record the in-page
extraction would produce. -/
structure InfoPage where
  navOk : Bool
  containerPresent : Bool
  extracted : PostData
deriving DecidableEq

/-- Outcome of `getPostInfo`: the extracted record or a thrown error, plus
the count of navigations performed (the operation is read-only and clicks
nothing). -/
structure InfoOutcome where
  result : Except String PostData
  navs : Nat
deriving DecidableEq

/-- Error-message prefix added by `getPostInfo`'s catch block
(src/src/services/postService.ts:417). -/
def infoWrap : String := "Failed to get LinkedIn post information: "

/-- Embedding of `getPostInfo` (src/src/services/postService.ts:274-419):
validate the URL, navigate with retry, wait for the post container, and
return the record produced by the in-page extraction. -/
def getPostInfo (postUrl : String) (pg : InfoPage) : InfoOutcome :=
  if !isValidLinkedInPostUrl postUrl then
    ⟨.error (infoWrap ++ invalidPostUrlMsg), 0⟩
  else if !pg.navOk then
    ⟨.error (infoWrap ++ navFailMsg), 1⟩
  else if !pg.containerPresent then
    ⟨.error (infoWrap ++ containerTimeoutMsg), 1⟩
  else
    ⟨.ok pg.extracted, 1⟩

theorem isValidLinkedInPostUrl_eq_false (url : String)
    (h1 : strIncludes url patFeedUpdate = false)
    (h2 : strIncludes url patPosts = false) :
    isValidLinkedInPostUrl url = false := by
  unfold isValidLinkedInPostUrl
  by_cases hu : url = ""
  · simp [hu]
  · simp [hu, h1, h2]

/-- Claim C10: for every URL containing neither accepted post-URL pattern
(including the empty string), each of `likePost`, `commentOnPost`,
`sharePost` and `getPostInfo` throws the invalid-URL error with zero
navigations, zero clicks and zero text entries performed, and - for the
like flow, whose embedding carries the page state - with the page state
unchanged: the precondition failure is atomic. -/
theorem postOps_reject_invalid_url (url comment shareText : String)
    (st : PostPage) (cpg : CommentPage) (spg : SharePage) (ipg : InfoPage)
    (h1 : strIncludes url patFeedUpdate = false)
    (h2 : strIncludes url patPosts = false) :
    likePost url st = ⟨.error (likeWrap ++ invalidPostUrlMsg), st, 0, 0⟩ ∧
    commentOnPost url comment cpg =
      ⟨.error (commentWrap ++ invalidPostUrlMsg), 0, 0, 0⟩ ∧
    sharePost url shareText spg =
      ⟨.error (shareWrap ++ invalidPostUrlMsg), 0, 0, 0⟩ ∧
    getPostInfo url ipg = ⟨.error (infoWrap ++ invalidPostUrlMsg), 0⟩ := by
  have hv := isValidLinkedInPostUrl_eq_false url h1 h2
  refine ⟨?_, ?_, ?_, ?_⟩
  · simp [likePost, hv]
  · simp [commentOnPost, hv]
  · simp [sharePost, hv]
  · simp [getPostInfo, hv]

/-- Concrete extraction record used in the C10 witness. -/
def witnessPostData : PostData := ⟨"", "", "", "", "", false, ""⟩

/-- Claim C10 witness: the empty URL (which contains neither pattern) is
rejected atomically by all four operations on concrete page states. -/
theorem postOps_reject_invalid_url_witness :
    likePost "" likedPage = ⟨.error (likeWrap ++ invalidPostUrlMsg), likedPage, 0, 0⟩ ∧
    commentOnPost "" "hello" ⟨true, true, true, true, true⟩ =
      ⟨.error (commentWrap ++ invalidPostUrlMsg), 0, 0, 0⟩ ∧
    sharePost "" "" ⟨true, true, true, true, true, true⟩ =
      ⟨.error (shareWrap ++ invalidPostUrlMsg), 0, 0, 0⟩ ∧
    getPostInfo "" ⟨true, true, witnessPostData⟩ =
      ⟨.error (infoWrap ++ invalidPostUrlMsg), 0⟩ := by
  exact postOps_reject_invalid_url "" "hello" "" likedPage
    ⟨true, true, true, true, true⟩ ⟨true, true, true, true, true, true⟩
    ⟨true, true, witnessPostData⟩ (by decide) (by decide)

/-- Inputs of one run of `LinkedIn.execute` (src/unnamed/part_001:377-470)
under browser authentication: whether `puppeteer.launch` succeeds, the
outcome of `loginToLinkedIn`, the outcome of each work item's operation
handler (`.ok` abstracts the handler's JSON payload as a string), and the
host's continue-on-fail policy. -/
structure ExecInput where
  launchOk : Bool
  loginResult : Except String Unit
  items : List (Except String String)
  continueOnFail : Bool

/-- Observable outcome of one run of `LinkedIn.execute`: how many times
`browser.close()` was called, and the returned data (each entry either a
payload or a recorded `{ error }` item) or the propagated error. -/
structure ExecOutcome where
  closes : Nat
  output : Except String (List (Except String String))

/-- Rejection message of a failed `puppeteer.launch`, modelled from the
browser driver. -/
def launchFailMsg : String := "Failed to launch the browser process"

/-- The per-item loop of `LinkedIn.execute` (src/unnamed/part_001:409-456):
a successful handler result is pushed to `returnData`; a throwing handler
either has its message recorded as an `{ error }` entry (continue-on-fail)
or aborts the loop by rethrowing. -/
def processItems (continueOnFail : Bool) :
    List (Except String String) → Except String (List (Except String String))
  | [] => .ok []
  | item :: rest =>
    match item with
    | .ok v =>
      match processItems continueOnFail rest with
      | .ok out => .ok (.ok v :: out)
      | .error e => .error e
    | .error e =>
      if continueOnFail then
        match processItems continueOnFail rest with
        | .ok out => .ok (.error e :: out)
        | .error e' => .error e'
      else .error e

/-- Embedding of `LinkedIn.execute` (src/unnamed/part_001:377-470) under
browser authentication.  The whole body runs in a `try` whose normal exit
closes the browser (line 459-461) and whose `catch` closes the browser
when it was launched and rethrows (line 464-469); `browser.close()` itself
is modelled as non-throwing.  When the launch itself fails, no browser
exists and nothing is closed. -/
def LinkedInExecute (inp : ExecInput) : ExecOutcome :=
  if !inp.launchOk then
    ⟨0, .error launchFailMsg⟩
  else
    match inp.loginResult with
    | .error e => ⟨1, .error e⟩
    | .ok _ =>
      match processItems inp.continueOnFail inp.items with
      | .error e => ⟨1, .error e⟩
      | .ok returnData => ⟨1, .ok returnData⟩

/-- Claim C8: whenever the browser was launched, every exit path of
`LinkedIn.execute` - batch completed, per-item failures recorded under
continue-on-fail, or an error (login failure or a non-continued per-item
failure) aborting the batch - closes the browser exactly once; no path
propagates an error with the browser open and no path closes it twice. -/
theorem execute_closes_browser_exactly_once (inp : ExecInput)
    (h : inp.launchOk = true) :
    (LinkedInExecute inp).closes = 1 := by
  unfold LinkedInExecute
  simp only [h, Bool.not_true, Bool.false_eq_true, if_false]
  cases inp.loginResult with
  | error e => rfl
  | ok u =>
    cases hp : processItems inp.continueOnFail inp.items with
    | error e => simp [hp]
    | ok out => simp [hp]

/-- Claim C8 witness: a batch whose first item fails under
continue-on-fail and whose second succeeds closes the browser exactly
once. -/
theorem execute_closes_browser_exactly_once_witness :
    (LinkedInExecute ⟨true, .ok (), [.error "boom", .ok "done"], true⟩).closes
      = 1 := by
  exact execute_closes_browser_exactly_once
    ⟨true, .ok (), [.error "boom", .ok "done"], true⟩ rfl

/-- JavaScript `x || dflt` for an optional boolean `x`: returns `x` when
it is truthy (`true`), otherwise the default - so `false` and `undefined`
both yield the default. -/
def jsOrDefault (x : Option Bool) (dflt : Bool) : Bool :=
  match x with
  | some true => true
  | some false => dflt
  | none => dflt

/-- The launch flag computed by `LinkedIn.execute`
(src/unnamed/part_001:392): `credentials.headless as boolean || true`,
where the credential field may be absent. -/
def launchHeadless (credHeadless : Option Bool) : Bool :=
  jsOrDefault credHeadless true

/-- Claim C9: for every credentials object - including one whose headless
field is `false`, and one lacking the field - the browser is launched with
`headless = true`: the `|| true` default makes the expression constantly
true, so the caller's run-headless flag can never produce a non-headless
launch from this code path. -/
theorem launchHeadless_always_true (credHeadless : Option Bool) :
    launchHeadless credHeadless = true := by
  cases credHeadless with
  | none => rfl
  | some b => cases b <;> rfl

end LinkedInNode
